import Mathlib

/-!
# Proof submission flow of bsp-agent (`internal/proof/proof.go`)

A shallow embedding of `getTransactionOpts` and `SendBlockReplicaProofTx`.

The two functions are straight-line Go code around calls into go-ethereum, the
standard library and the contract binding generated into the package. The
source of those callees is not at hand, and most of them talk to the ledger, so
they are taken as parameters:

* `Lib`  : the pure library functions (`common.FromHex`, `crypto.ToECDSAUnsafe`,
  `bind.NewKeyedTransactorWithChainID`, `json.Marshal`, `sha256.Sum256`, ...);
* `Net`  : the calls that reach the ledger (`ethClient.ChainID`, `NewProofChain`,
  `SubmitBlockSpecimenProof`, `bind.WaitMined`).

A run of a Go function is a value of `Go α`: the ordered list of observable
events (collaborator calls with their results, log lines, channel sends)
together with the way the run ended (`ret`, `exit` for `os.Exit` reached
through `log.Fatalf`, `panic` for a run-time panic).

The pointer parameters `config` and `blockReplica` and the slice
`resultSegment` may be nil. What is not modelled: wall-clock time (the 60
second deadline of `context.WithTimeout` shows only as an error result of
`WaitMined`) and the blocking behaviour of the channel send; the context, the
client and the channel are taken to be usable.
-/

set_option maxRecDepth 100000

namespace Proof

/-! ## Data -/

/-- A Go `error` value that is not nil, identified by its message. -/
abbrev GoError := String

/-- A sequence of bytes. Every element is read modulo 256. -/
abbrev Bytes := List Nat

/-- A Go `[]byte` value: the nil slice (`none`), or a slice that is not nil with
its bytes. The nil slice and the empty slice `[]byte{}` are two values with the
same bytes. -/
abbrev ByteSlice := Option Bytes

/-- The bytes of a slice; the nil slice has none. -/
def ByteSlice.bytes (s : ByteSlice) : Bytes := s.getD []

/-- A Go `[32]byte`: the representation of `common.Hash` and the result type of
`sha256.Sum256`. -/
structure Bytes32 where
  bytes : List Nat
  size : bytes.length = 32
deriving DecidableEq, Repr

/-- The type `common.Hash` of go-ethereum. -/
abbrev Hash := Bytes32

/-- The two lowercase hexadecimal digits of one byte. -/
def hexByte (b : Nat) : List Char :=
  [Nat.digitChar (b % 256 / 16), Nat.digitChar (b % 16)]

/-- Lowercase hexadecimal text of a byte sequence (`hex.EncodeToString`). -/
def hexEncode (bs : List Nat) : String :=
  String.mk (bs.flatMap hexByte)

/-- Modelled from the spec: the string form of a transaction identifier is a
non-empty hex string. `common.Hash.String` is declared in go-ethereum, not in
this repository; there it is `hexutil.Encode(h[:])`, the text `0x` followed by
two lowercase hex digits per byte. -/
def Hash.String (h : Hash) : String :=
  "0x" ++ hexEncode h.bytes

/-- Modelled from the spec: the value of a receipt's status flag that means
successful. The constant `types.ReceiptStatusSuccessful` is declared in
go-ethereum, not in this repository; there it is `1`, and `ReceiptStatusFailed`
is `0`. -/
def ReceiptStatusSuccessful : Nat := 1

/-- The type `common.Address`. -/
structure Address where
  bytes : List Nat
deriving DecidableEq, Repr

/-- The type `ecdsa.PrivateKey`, reduced to its secret scalar. -/
structure PrivateKey where
  D : Nat
deriving DecidableEq, Repr

/-- What a call of `crypto.ToECDSAUnsafe` gives: a key, a nil key for a scalar
that is no valid key, or a panic inside the call. -/
inductive KeyResult where
  | key (k : PrivateKey)
  | nilKey
  | panics (msg : String)
deriving DecidableEq, Repr

/-- The type `bind.TransactOpts`: the signing identity and the chain it is
scoped to. -/
structure TransactOpts where
  From : Address
  chain : Int
deriving DecidableEq, Repr

/-- The bound contract handle `*ProofChain`. -/
structure ProofChain where
  address : Address
deriving DecidableEq, Repr

/-- A pending `*types.Transaction`; `hash` is what `transaction.Hash()` returns. -/
structure Transaction where
  hash : Hash
deriving DecidableEq, Repr

/-- The fields of go-ethereum's `types.Receipt` read by the package. -/
structure Receipt where
  Status : Nat
  TxHash : Hash
deriving DecidableEq, Repr

/-- The fields of `config.EthConfig` read by the package. The package holds a
pointer to it, modelled as `Option EthConfig`. -/
structure EthConfig where
  PrivateKey : String
deriving DecidableEq, Repr

/-- The fields of `ty.BlockReplica` read by the package. The package holds a
pointer to it, modelled as `Option BlockReplica`. -/
structure BlockReplica where
  NetworkId : Nat
  Hash : Hash
deriving DecidableEq, Repr

/-- The argument list of one `contract.SubmitBlockSpecimenProof` call, in the
order of the Go call. `opts` is a Go pointer. -/
structure SubmitArgs where
  opts : Option TransactOpts
  chainId : Nat
  blockHeight : Nat
  blockHash : Hash
  specimenHash : Bytes32
  storageURL : String
deriving DecidableEq, Repr

/-- The result of a Go call returning `(value, error)` under the usual
convention: exactly one of the two is nil. -/
inductive Res (α : Type) where
  | ok (a : α)
  | err (e : GoError)
deriving DecidableEq, Repr

/-- The value half of a `(value, error)` result, as a Go pointer. -/
def Res.ptr {α : Type} : Res α → Option α
  | .ok a => some a
  | .err _ => none

/-- The error half of a `(value, error)` result. -/
def Res.error {α : Type} : Res α → Option GoError
  | .ok _ => none
  | .err e => some e

/-! ## Collaborators -/

/-- The pure library functions the package calls. -/
structure Lib where
  /-- Function `common.FromHex`. -/
  FromHex : String → ByteSlice
  /-- Function `crypto.ToECDSAUnsafe`. -/
  ToECDSAUnsafe : ByteSlice → KeyResult
  /-- Function `crypto.PubkeyToAddress` applied to the key's public half. -/
  PubkeyToAddress : PrivateKey → Address
  /-- Function `bind.NewKeyedTransactorWithChainID`; the chain id is a `*big.Int`. -/
  NewKeyedTransactorWithChainID : PrivateKey → Option Int → Res TransactOpts
  /-- Function `common.HexToAddress`. -/
  HexToAddress : String → Address
  /-- Function `json.Marshal` at type `[]byte`; the text is a slice that is not
  nil. -/
  Marshal : ByteSlice → Res Bytes
  /-- Function `sha256.Sum256`. -/
  Sum256 : ByteSlice → Bytes32

/-- The calls that reach the ledger through `ethClient`. -/
structure Net where
  /-- Method `ethClient.ChainID(ctx)`; on failure the returned `*big.Int` is nil. -/
  ChainID : Res Int
  /-- Function `NewProofChain(address, ethClient)` of the generated binding. -/
  NewProofChain : Address → Res ProofChain
  /-- Method `contract.SubmitBlockSpecimenProof`. -/
  SubmitBlockSpecimenProof : ProofChain → SubmitArgs → Res Transaction
  /-- Function `bind.WaitMined(ctx, ethClient, transaction)`: a receipt, or a nil
  receipt with an error (among them the elapsed deadline of `ctx`). -/
  WaitMined : Transaction → Res Receipt

/-! ## Runs -/

/-- One observable step of a run. -/
inductive Event where
  | chainID (res : Res Int)
  | newKeyedTransactor (key : PrivateKey) (chainID : Option Int) (res : Res TransactOpts)
  | newProofChain (addr : Address) (res : Res ProofChain)
  | marshal (v : ByteSlice) (res : Res Bytes)
  | sum256 (data : ByteSlice) (res : Bytes32)
  | submit (contract : ProofChain) (args : SubmitArgs) (res : Res Transaction)
  | waitMined (tx : Transaction) (res : Res Receipt)
  | logError (msg : String)
  | logFatal (msg : String)
  | send (v : String)
deriving DecidableEq, Repr

/-- How a run ends: it returns a value, the process exits (`os.Exit`), or the
goroutine panics. -/
inductive Outcome (α : Type) where
  | ret (a : α)
  | exit (code : Nat)
  | panic (msg : String)
deriving DecidableEq, Repr

/-- A run of Go code: the events in the order they happened and the outcome. -/
structure Go (α : Type) where
  trace : List Event
  out : Outcome α
deriving Repr

/-- A run that does nothing and returns `a`. -/
def Go.pure {α : Type} (a : α) : Go α := ⟨[], .ret a⟩

/-- The run `y` with the events `t` in front of its own. -/
def Go.prepend {α : Type} (t : List Event) (y : Go α) : Go α :=
  ⟨t ++ y.trace, y.out⟩

/-- Sequencing: the second part runs only when the first one returned. -/
def Go.bind {α β : Type} (x : Go α) (f : α → Go β) : Go β :=
  match x.out with
  | .ret a => (f a).prepend x.trace
  | .exit c => ⟨x.trace, .exit c⟩
  | .panic m => ⟨x.trace, .panic m⟩

instance : Monad Go where
  pure := Go.pure
  bind := Go.bind

/-- Record one event. -/
def emit (e : Event) : Go Unit := ⟨[e], .ret ()⟩

/-- Call `log.Error`. -/
def logError (msg : String) : Go Unit := emit (.logError msg)

/-- Call `log.Fatalf`: the line is logged and the process exits with status 1. -/
def logFatalf {α : Type} (msg : String) : Go α := ⟨[.logFatal msg], .exit 1⟩

/-- The channel send `txHash <- v`. -/
def send (v : String) : Go Unit := emit (.send v)

/-- The message of the run-time panic raised by the use of a nil pointer or of
a nil interface value. -/
def nilPanic : String := "runtime error: invalid memory address or nil pointer dereference"

/-- Use of a Go pointer or interface value: a nil one panics. -/
def deref {α : Type} : Option α → Go α
  | some a => Go.pure a
  | none => ⟨[], .panic nilPanic⟩

/-- The call of `crypto.ToECDSAUnsafe`: the key as a Go pointer, or the panic
raised inside the call. -/
def callKey : KeyResult → Go (Option PrivateKey)
  | .key k => Go.pure (some k)
  | .nilKey => Go.pure none
  | .panics m => ⟨[], .panic m⟩

/-- A collaborator call, recorded with its result and handed back as the Go
pair `(value, error)`. -/
def call {α : Type} (r : Res α) (ev : Res α → Event) : Go (Option α × Option GoError) :=
  ⟨[ev r], .ret (r.ptr, r.error)⟩

/-! ## The package's functions -/

/-- Function `getTransactionOpts` (proof.go, lines 80-94). The context is not
modelled and `ethClient` is `net`. The Go variable `err` is assigned twice: the
result of the chain id query is only logged, then overwritten by the result of
the transactor construction. -/
def getTransactionOpts (lib : Lib) (net : Net) (config : Option EthConfig) :
    Go (Address × Option TransactOpts × Nat × Option GoError) := do
  -- 81: sKey := config.PrivateKey, a use of the pointer config
  let cfg ← deref config
  let sKey := cfg.PrivateKey
  -- 82: chainID, err := ethClient.ChainID(ctx)
  let (chainID, err) ← call net.ChainID .chainID
  -- 83-85: if err != nil: log.Error, and no return
  if let some e := err then
    logError ("error in getting transaction options: " ++ e)
  -- 86: secretKey := crypto.ToECDSAUnsafe(common.FromHex(sKey))
  let secretKey ← callKey (lib.ToECDSAUnsafe (lib.FromHex sKey))
  -- 87: addr := crypto.PubkeyToAddress(secretKey.PublicKey), a use of the pointer secretKey
  let key ← deref secretKey
  let addr := lib.PubkeyToAddress key
  -- 88: opts, err := bind.NewKeyedTransactorWithChainID(secretKey, chainID)
  let (opts, err) ← call (lib.NewKeyedTransactorWithChainID key chainID)
    (.newKeyedTransactor key chainID)
  -- 89-91: if err != nil: log.Fatalf
  if let some e := err then
    logFatalf ("error getting new keyed transactor with chain id: " ++ e)
  -- 93: return addr, opts, chainID.Uint64(), err; a use of the pointer chainID
  let id ← deref chainID
  return (addr, opts, id.natAbs % 2 ^ 64, err)

/-- Function `SendBlockReplicaProofTx` (proof.go, lines 25-78). The context and
its deadline are not modelled, `ethClient` is `net`, and a send on the channel
`txHash` is the event `send`. -/
def SendBlockReplicaProofTx (lib : Lib) (net : Net) (config : Option EthConfig)
    (proofChain : String) (chainHeight : Nat) (chainLen : Nat) (resultSegment : ByteSlice)
    (replicaURL : String) (blockReplica : Option BlockReplica) : Go Unit := do
  let _ := chainLen
  -- 29-35: _, opts, _, err := getTransactionOpts(ctx, config, ethClient)
  let (_, opts, _, err) ← getTransactionOpts lib net config
  if let some e := err then
    logError ("error getting transaction ops: " ++ e)
    send ""
    return
  -- 37-44: contract, err := NewProofChain(contractAddress, ethClient)
  let contractAddress := lib.HexToAddress proofChain
  let (contract, err) ← call (net.NewProofChain contractAddress) (.newProofChain contractAddress)
  if let some e := err then
    logError ("error binding to deployed contract: " ++ e)
    send ""
    return
  -- 46-52: jsonResult, err := json.Marshal(resultSegment)
  let (jsonResult, err) ← call (lib.Marshal resultSegment) (.marshal resultSegment)
  if let some e := err then
    logError ("error in JSON marshaling result segment: " ++ e)
    send ""
    return
  -- 53: sha256Result := sha256.Sum256(jsonResult)
  let sha256Result := lib.Sum256 jsonResult
  emit (.sum256 jsonResult sha256Result)
  -- 55: transaction, err := contract.SubmitBlockSpecimenProof(opts,
  --     blockReplica.NetworkId, chainHeight, blockReplica.Hash, sha256Result, replicaURL),
  --     a use of the pointers contract and blockReplica
  let c ← deref contract
  let replica ← deref blockReplica
  let args : SubmitArgs :=
    ⟨opts, replica.NetworkId, chainHeight, replica.Hash, sha256Result, replicaURL⟩
  let (transaction, err) ← call (net.SubmitBlockSpecimenProof c args) (.submit c args)
  -- 57-62
  if let some e := err then
    logError ("error calling deployed contract: " ++ e)
    send ""
    return
  -- 63: receipt, err := bind.WaitMined(ctx, ethClient, transaction)
  let tx ← deref transaction
  let (receipt, err) ← call (net.WaitMined tx) (.waitMined tx)
  -- 64: receipt.Status is read first, a use of the pointer receipt
  let r ← deref receipt
  if r.Status ≠ ReceiptStatusSuccessful then
    -- 65: the log line is built from err.Error(), a use of the interface value err
    let e ← deref err
    logError ("block-result proof tx call: " ++ Hash.String tx.hash
      ++ " to proof contract failed: " ++ e)
    -- 66-68
    send ""
    return
  -- 70-75
  if let some e := err then
    logError ("error in waiting for tx to be mined on the blockchain: " ++ e)
    send ""
    return
  -- 77: txHash <- receipt.TxHash.String()
  send (Hash.String r.TxHash)

/-! ## Observations on a run -/

/-- The values written to the `txHash` channel, in order. -/
def writes (t : List Event) : List String :=
  t.filterMap fun
    | .send v => some v
    | _ => none

/-- The argument lists of the `SubmitBlockSpecimenProof` calls, in order. -/
def submitCalls (t : List Event) : List SubmitArgs :=
  t.filterMap fun
    | .submit _ a _ => some a
    | _ => none

/-- The transactions handed to `WaitMined`, in order. -/
def waitCalls (t : List Event) : List Transaction :=
  t.filterMap fun
    | .waitMined tx _ => some tx
    | _ => none

/-! ## Concrete collaborators

The library functions as go-ethereum and the Go standard library implement
them, for the runs that are evaluated on concrete inputs. -/

/-- The bytes of the UTF-8 text of a character. -/
def utf8Bytes (c : Char) : Bytes :=
  let n := c.toNat
  if n < 0x80 then [n]
  else if n < 0x800 then [0xC0 + n / 64, 0x80 + n % 64]
  else if n < 0x10000 then [0xE0 + n / 4096, 0x80 + n / 64 % 64, 0x80 + n % 64]
  else [0xF0 + n / 262144, 0x80 + n / 4096 % 64, 0x80 + n / 64 % 64, 0x80 + n % 64]

/-- The value of the hexadecimal digit with ASCII code `n`, if it is one. -/
def hexVal (n : Nat) : Option Nat :=
  if 48 ≤ n ∧ n ≤ 57 then some (n - 48)
  else if 97 ≤ n ∧ n ≤ 102 then some (n - 87)
  else if 65 ≤ n ∧ n ≤ 70 then some (n - 55)
  else none

/-- The bytes written by consecutive pairs of hexadecimal digits, up to the first
pair that holds another character (`hex.DecodeString` hands back what it
decoded before the error, and `common.Hex2Bytes` drops the error). -/
def hexPairs : List Nat → Bytes
  | a :: b :: t =>
    match hexVal a, hexVal b with
    | some x, some y => (16 * x + y) :: hexPairs t
    | _, _ => []
  | _ => []

/-- The behaviour of `common.FromHex`: an optional `0x` is dropped, an odd
number of bytes is completed by a leading `0`, and the pairs of digits are
decoded. -/
def goFromHex (s : String) : ByteSlice :=
  let bs := match s.toList.flatMap utf8Bytes with
    | 48 :: 120 :: t => t
    | 48 :: 88 :: t => t
    | l => l
  some (hexPairs (if bs.length % 2 = 1 then 48 :: bs else bs))

/-- The order of the group of the curve secp256k1. -/
def secp256k1N : Nat := 0xfffffffffffffffffffffffffffffffebaaedce6af48a03bbfd25e8cd0364141

/-- The behaviour of `crypto.ToECDSAUnsafe`: the bytes are read as a big-endian
number; the result is nil when that number is zero or not below the group
order; otherwise the public key is computed from the bytes, which panics in
the curve code when there are more than 32 of them. -/
def goToECDSAUnsafe (d : ByteSlice) : KeyResult :=
  let bs := ByteSlice.bytes d
  let n := bs.foldl (fun acc b => 256 * acc + b % 256) 0
  if n = 0 ∨ secp256k1N ≤ n then .nilKey
  else if 32 < bs.length then .panics "can't handle scalars > 256 bits"
  else .key ⟨n⟩

/-- A stand-in for `crypto.PubkeyToAddress`: twenty bytes determined by the key.
(The real address is a Keccak-256 digest of the public key; the package only
passes it on.) -/
def goPubkeyToAddress (k : PrivateKey) : Address :=
  ⟨(List.range 20).map fun i => k.D / 256 ^ (19 - i) % 256⟩

/-- The behaviour of go-ethereum's `bind.NewKeyedTransactorWithChainID`: a nil
chain id is rejected with `ErrNoChainID`, any other one gives options for the
key's address. -/
def goNewKeyedTransactorWithChainID (key : PrivateKey) : Option Int → Res TransactOpts
  | none => .err "no chain id specified"
  | some id => .ok ⟨goPubkeyToAddress key, id⟩

/-- The behaviour of `common.HexToAddress`: the decoded bytes, cut or zero-filled
on the left to twenty bytes. -/
def goHexToAddress (s : String) : Address :=
  let b := ByteSlice.bytes (goFromHex s)
  let b := b.drop (b.length - 20)
  ⟨List.replicate (20 - b.length) 0 ++ b⟩

/-- The ASCII code of the base64 digit of value `n`. -/
def base64Char (n : Nat) : Nat :=
  if n < 26 then 65 + n
  else if n < 52 then 97 + (n - 26)
  else if n < 62 then 48 + (n - 52)
  else if n = 62 then 43
  else 47

/-- Standard base64 with padding (`base64.StdEncoding`). -/
def base64 : List Nat → List Nat
  | a :: b :: c :: t =>
      base64Char (a % 256 / 4) :: base64Char (a % 4 * 16 + b % 256 / 16) ::
        base64Char (b % 16 * 4 + c % 256 / 64) :: base64Char (c % 64) :: base64 t
  | [a, b] =>
      [base64Char (a % 256 / 4), base64Char (a % 4 * 16 + b % 256 / 16),
        base64Char (b % 16 * 4), 61]
  | [a] => [base64Char (a % 256 / 4), base64Char (a % 4 * 16), 61, 61]
  | [] => []

/-- The behaviour of `json.Marshal` at type `[]byte`: the text `null` for the
nil slice, and for any other slice the base64 text of its bytes in double
quotes. It does not fail. -/
def goMarshal : ByteSlice → Res Bytes
  | none => .ok [110, 117, 108, 108]
  | some v => .ok (34 :: base64 v ++ [34])

/-- Rotation of a 32-bit word to the right. -/
def rotr (x n : Nat) : Nat := (x >>> n ||| x <<< (32 - n)) % 2 ^ 32

/-- The largest `x` below `2 ^ b` over the bits already set in `x` such that
`x ^ k ≤ n`: the integer `k`-th root of `n`, found bit by bit from the top. -/
def rootBits (k n : Nat) : Nat → Nat → Nat
  | 0, x => x
  | b + 1, x => rootBits k n b (if (x + 2 ^ b) ^ k ≤ n then x + 2 ^ b else x)

/-- The first 32 bits of the fractional part of the `k`-th root of `p`. -/
def fracRoot32 (k p : Nat) : Nat :=
  rootBits k (p * 2 ^ (32 * k)) 36 0 % 2 ^ 32

/-- The first sixty-four prime numbers, `2` to `311`. -/
def sha256Primes : List Nat :=
  [2, 3, 5, 7, 11, 13, 17, 19, 23, 29, 31, 37, 41, 43, 47, 53,
    59, 61, 67, 71, 73, 79, 83, 89, 97, 101, 103, 107, 109, 113, 127, 131,
    137, 139, 149, 151, 157, 163, 167, 173, 179, 181, 191, 193, 197, 199, 211, 223,
    227, 229, 233, 239, 241, 251, 257, 263, 269, 271, 277, 281, 283, 293, 307, 311]

/-- The round constants of SHA-256: the fractional parts of the cube roots of
the first sixty-four primes. -/
def sha256K : List Nat :=
  sha256Primes.map (fracRoot32 3)

/-- The eight working words of SHA-256. -/
structure ShaState where
  a : Nat
  b : Nat
  c : Nat
  d : Nat
  e : Nat
  f : Nat
  g : Nat
  h : Nat
deriving DecidableEq, Repr

/-- The initial hash value of SHA-256: the fractional parts of the square roots
of the first eight primes. -/
def sha256Init : ShaState :=
  ⟨fracRoot32 2 2, fracRoot32 2 3, fracRoot32 2 5, fracRoot32 2 7, fracRoot32 2 11,
    fracRoot32 2 13, fracRoot32 2 17, fracRoot32 2 19⟩

/-- The padded message: the bytes, `0x80`, zeros up to 56 modulo 64, and the bit
length on eight big-endian bytes. -/
def sha256Pad (m : Bytes) : Bytes :=
  let l := m.length
  m.map (· % 256) ++ [0x80] ++ List.replicate ((119 - l % 64) % 64) 0 ++
    (List.range 8).map fun i => (8 * l) >>> (8 * (7 - i)) % 256

/-- Big-endian 32-bit words of a byte sequence. -/
def sha256Words : List Nat → List Nat
  | a :: b :: c :: d :: t => (a <<< 24 ||| b <<< 16 ||| c <<< 8 ||| d) :: sha256Words t
  | _ => []

/-- Extension of the message schedule by `n` words; `w` holds the schedule so
far, latest word first. -/
def sha256Extend : Nat → List Nat → List Nat
  | 0, w => w
  | n + 1, w =>
    let w2 := w.getD 1 0
    let w7 := w.getD 6 0
    let w15 := w.getD 14 0
    let w16 := w.getD 15 0
    let s0 := rotr w15 7 ^^^ rotr w15 18 ^^^ (w15 >>> 3)
    let s1 := rotr w2 17 ^^^ rotr w2 19 ^^^ (w2 >>> 10)
    sha256Extend n (((w16 + s0 + w7 + s1) % 2 ^ 32) :: w)

/-- One round of the compression function, on a round constant and a schedule
word. -/
def sha256Round (s : ShaState) (kw : Nat × Nat) : ShaState :=
  let s1 := rotr s.e 6 ^^^ rotr s.e 11 ^^^ rotr s.e 25
  let ch := (s.e &&& s.f) ^^^ ((2 ^ 32 - 1 - s.e) &&& s.g)
  let t1 := (s.h + s1 + ch + kw.1 + kw.2) % 2 ^ 32
  let s0 := rotr s.a 2 ^^^ rotr s.a 13 ^^^ rotr s.a 22
  let maj := (s.a &&& s.b) ^^^ (s.a &&& s.c) ^^^ (s.b &&& s.c)
  let t2 := (s0 + maj) % 2 ^ 32
  ⟨(t1 + t2) % 2 ^ 32, s.a, s.b, s.c, (s.d + t1) % 2 ^ 32, s.e, s.f, s.g⟩

/-- The compression of one 64-byte block into the state. -/
def sha256Compress (s : ShaState) (block : List Nat) : ShaState :=
  let w := (sha256Extend 48 (sha256Words block).reverse).reverse
  let r := (sha256K.zip w).foldl sha256Round s
  ⟨(s.a + r.a) % 2 ^ 32, (s.b + r.b) % 2 ^ 32, (s.c + r.c) % 2 ^ 32, (s.d + r.d) % 2 ^ 32,
    (s.e + r.e) % 2 ^ 32, (s.f + r.f) % 2 ^ 32, (s.g + r.g) % 2 ^ 32, (s.h + r.h) % 2 ^ 32⟩

/-- The compression of the first `n` blocks of `m`. -/
def sha256Blocks : Nat → ShaState → List Nat → ShaState
  | 0, s, _ => s
  | n + 1, s, m => sha256Blocks n (sha256Compress s (m.take 64)) (m.drop 64)

/-- The four big-endian bytes of a 32-bit word. -/
def be4 (x : Nat) : List Nat := [x >>> 24 % 256, x >>> 16 % 256, x >>> 8 % 256, x % 256]

/-- The function `sha256.Sum256`: the SHA-256 digest of the bytes of the slice. -/
def goSum256 (m : ByteSlice) : Bytes32 :=
  let p := sha256Pad (ByteSlice.bytes m)
  let s := sha256Blocks (p.length / 64) sha256Init p
  ⟨be4 s.a ++ be4 s.b ++ be4 s.c ++ be4 s.d ++ be4 s.e ++ be4 s.f ++ be4 s.g ++ be4 s.h, rfl⟩

/-- The library as linked into the agent. -/
def goLib : Lib where
  FromHex := goFromHex
  ToECDSAUnsafe := goToECDSAUnsafe
  PubkeyToAddress := goPubkeyToAddress
  NewKeyedTransactorWithChainID := goNewKeyedTransactorWithChainID
  HexToAddress := goHexToAddress
  Marshal := goMarshal
  Sum256 := goSum256

/-- A ledger stub: the chain id query, the contract call and the wait give the
stated results whatever they are asked; binding always succeeds. -/
def stubNet (chain : Res Int) (submit : Res Transaction) (wait : Res Receipt) : Net where
  ChainID := chain
  NewProofChain := fun a => .ok ⟨a⟩
  SubmitBlockSpecimenProof := fun _ _ => submit
  WaitMined := fun _ => wait

/-- The hash `0x0…0abc`. -/
def hashABC : Hash := ⟨List.replicate 30 0 ++ [0x0a, 0xbc], by decide⟩

/-- The hash `0x0…0dead`. -/
def hashDEAD : Hash := ⟨List.replicate 30 0 ++ [0xde, 0xad], by decide⟩

/-- The payload `[]byte("result")`. -/
def payload : ByteSlice := some [114, 101, 115, 117, 108, 116]

/-- The submission of the scenario of the specification on the ledger `net`:
replica of network 1 with hash `0x0…0dead`, payload `result`, chain height 5. -/
def scenario (lib : Lib) (net : Net) : Go Unit :=
  SendBlockReplicaProofTx lib net (some ⟨"0x01"⟩) "0x0000000000000000000000000000000000000abc"
    5 1 payload "ipfs://replica" (some ⟨1, hashDEAD⟩)

/-- The pending transaction returned by the stub contract. -/
def pendingTx : Transaction := ⟨hashABC⟩

/-- A receipt of the pending transaction with status successful. -/
def minedReceipt : Receipt := ⟨1, hashABC⟩

/-- A receipt of the pending transaction with status failed: mined but
reverted. -/
def revertedReceipt : Receipt := ⟨0, hashABC⟩

/-- Ledger on which every step succeeds. -/
def okNet : Net := stubNet (.ok 1) (.ok pendingTx) (.ok minedReceipt)

/-- Ledger whose chain id query fails. -/
def noChainNet : Net := stubNet (.err "connection refused") (.ok pendingTx) (.ok minedReceipt)

/-- Ledger whose contract rejects the call. -/
def rejectNet : Net := stubNet (.ok 1) (.err "insufficient funds") (.ok minedReceipt)

/-- Ledger on which the transaction is mined but reverted. -/
def revertNet : Net := stubNet (.ok 1) (.ok pendingTx) (.ok revertedReceipt)

/-- Ledger on which the wait ends with the deadline of the context. -/
def timeoutNet : Net := stubNet (.ok 1) (.ok pendingTx) (.err "context deadline exceeded")

/-- The signing key of the scenario. -/
def scenarioKey : PrivateKey := ⟨1⟩

/-- The transaction options of the scenario. -/
def scenarioOpts : TransactOpts := ⟨goPubkeyToAddress scenarioKey, 1⟩

/-- The contract handle of the scenario. -/
def scenarioContract : ProofChain :=
  ⟨goHexToAddress "0x0000000000000000000000000000000000000abc"⟩

/-- The JSON text of the payload of the scenario: the base64 text `cmVzdWx0` in
double quotes. -/
def scenarioJSON : Bytes := [34, 99, 109, 86, 122, 100, 87, 120, 48, 34]

/-- The SHA-256 digest of the JSON text of the payload of the scenario,
`1a8275502d883f75af93fc0a8dad445debbcb48b6a170846c4417d072df73c3b`. -/
def scenarioDigest : Bytes32 :=
  ⟨[0x1a, 0x82, 0x75, 0x50, 0x2d, 0x88, 0x3f, 0x75, 0xaf, 0x93, 0xfc, 0x0a, 0x8d, 0xad, 0x44,
    0x5d, 0xeb, 0xbc, 0xb4, 0x8b, 0x6a, 0x17, 0x08, 0x46, 0xc4, 0x41, 0x7d, 0x07, 0x2d, 0xf7,
    0x3c, 0x3b], rfl⟩

/-- The SHA-256 digest of the text `null`,
`74234e98afe7498fb5daf1f36ac2d78acc339464f950703b8c019892f982b90b`. -/
def nullDigest : Bytes32 :=
  ⟨[0x74, 0x23, 0x4e, 0x98, 0xaf, 0xe7, 0x49, 0x8f, 0xb5, 0xda, 0xf1, 0xf3, 0x6a, 0xc2, 0xd7,
    0x8a, 0xcc, 0x33, 0x94, 0x64, 0xf9, 0x50, 0x70, 0x3b, 0x8c, 0x01, 0x98, 0x92, 0xf9, 0x82,
    0xb9, 0x0b], rfl⟩

/-- The SHA-256 digest of the text of two double quotes, the JSON text of the
empty string, `12ae32cb1ec02d01eda3581b127c1fee3b0dc53572ed6baf239721a03d82e126`. -/
def emptyTextDigest : Bytes32 :=
  ⟨[0x12, 0xae, 0x32, 0xcb, 0x1e, 0xc0, 0x2d, 0x01, 0xed, 0xa3, 0x58, 0x1b, 0x12, 0x7c, 0x1f,
    0xee, 0x3b, 0x0d, 0xc5, 0x35, 0x72, 0xed, 0x6b, 0xaf, 0x23, 0x97, 0x21, 0xa0, 0x3d, 0x82,
    0xe1, 0x26], rfl⟩

/-- The submission of the scenario with `resultSegment` replaced by `segment`, on
the ledger where every step succeeds. -/
def scenarioWith (segment : ByteSlice) : Go Unit :=
  SendBlockReplicaProofTx goLib okNet (some ⟨"0x01"⟩)
    "0x0000000000000000000000000000000000000abc" 5 1 segment "ipfs://replica"
    (some ⟨1, hashDEAD⟩)

/-- The argument list of the contract call of the scenario. -/
def scenarioArgs : SubmitArgs :=
  ⟨some scenarioOpts, 1, 5, hashDEAD, scenarioDigest, "ipfs://replica"⟩

/-! ## Paths through the code -/

/-- The events of the chain id query at the head of `getTransactionOpts`: the call, and
the error line when it failed. -/
def chainIDEvents : Res Int → List Event
  | .ok id => [.chainID (.ok id)]
  | .err e => [.chainID (.err e), .logError ("error in getting transaction options: " ++ e)]

/-- The runs of `getTransactionOpts`, one constructor per path through the code. -/
inductive OptsPath (lib : Lib) (net : Net) (config : Option EthConfig) :
    Go (Address × Option TransactOpts × Nat × Option GoError) → Prop where
  | configNil (h0 : config = none) :
      OptsPath lib net config ⟨[], .panic nilPanic⟩
  | keyPanic (cfg : EthConfig) (m : String) (h0 : config = some cfg)
      (h2 : lib.ToECDSAUnsafe (lib.FromHex cfg.PrivateKey) = .panics m) :
      OptsPath lib net config ⟨chainIDEvents net.ChainID, .panic m⟩
  | keyNil (cfg : EthConfig) (h0 : config = some cfg)
      (h2 : lib.ToECDSAUnsafe (lib.FromHex cfg.PrivateKey) = .nilKey) :
      OptsPath lib net config ⟨chainIDEvents net.ChainID, .panic nilPanic⟩
  | fatal (cfg : EthConfig) (k : PrivateKey) (e : GoError) (h0 : config = some cfg)
      (h2 : lib.ToECDSAUnsafe (lib.FromHex cfg.PrivateKey) = .key k)
      (h3 : lib.NewKeyedTransactorWithChainID k net.ChainID.ptr = .err e) :
      OptsPath lib net config
        ⟨chainIDEvents net.ChainID ++ [.newKeyedTransactor k net.ChainID.ptr (.err e),
          .logFatal ("error getting new keyed transactor with chain id: " ++ e)], .exit 1⟩
  | chainNil (cfg : EthConfig) (k : PrivateKey) (e : GoError) (o : TransactOpts)
      (h0 : config = some cfg) (h1 : net.ChainID = .err e)
      (h2 : lib.ToECDSAUnsafe (lib.FromHex cfg.PrivateKey) = .key k)
      (h3 : lib.NewKeyedTransactorWithChainID k none = .ok o) :
      OptsPath lib net config
        ⟨[.chainID (.err e), .logError ("error in getting transaction options: " ++ e),
          .newKeyedTransactor k none (.ok o)], .panic nilPanic⟩
  | ok (cfg : EthConfig) (id : Int) (k : PrivateKey) (o : TransactOpts)
      (h0 : config = some cfg) (h1 : net.ChainID = .ok id)
      (h2 : lib.ToECDSAUnsafe (lib.FromHex cfg.PrivateKey) = .key k)
      (h3 : lib.NewKeyedTransactorWithChainID k (some id) = .ok o) :
      OptsPath lib net config
        ⟨[.chainID (.ok id), .newKeyedTransactor k (some id) (.ok o)],
          .ret (lib.PubkeyToAddress k, some o, id.natAbs % 2 ^ 64, none)⟩

/-- The runs of `SendBlockReplicaProofTx`, one constructor per path through the code. -/
inductive SendPath (lib : Lib) (net : Net) (config : Option EthConfig) (proofChain : String)
    (chainHeight : Nat) (resultSegment : ByteSlice) (replicaURL : String)
    (blockReplica : Option BlockReplica) : Go Unit → Prop where
  | configNil (h0 : config = none) :
      SendPath lib net config proofChain chainHeight resultSegment replicaURL blockReplica
        ⟨[], .panic nilPanic⟩
  | keyPanic (cfg : EthConfig) (m : String) (h0 : config = some cfg)
      (h2 : lib.ToECDSAUnsafe (lib.FromHex cfg.PrivateKey) = .panics m) :
      SendPath lib net config proofChain chainHeight resultSegment replicaURL blockReplica
        ⟨chainIDEvents net.ChainID, .panic m⟩
  | keyNil (cfg : EthConfig) (h0 : config = some cfg)
      (h2 : lib.ToECDSAUnsafe (lib.FromHex cfg.PrivateKey) = .nilKey) :
      SendPath lib net config proofChain chainHeight resultSegment replicaURL blockReplica
        ⟨chainIDEvents net.ChainID, .panic nilPanic⟩
  | fatal (cfg : EthConfig) (k : PrivateKey) (e : GoError) (h0 : config = some cfg)
      (h2 : lib.ToECDSAUnsafe (lib.FromHex cfg.PrivateKey) = .key k)
      (h3 : lib.NewKeyedTransactorWithChainID k net.ChainID.ptr = .err e) :
      SendPath lib net config proofChain chainHeight resultSegment replicaURL blockReplica
        ⟨chainIDEvents net.ChainID ++ [.newKeyedTransactor k net.ChainID.ptr (.err e),
          .logFatal ("error getting new keyed transactor with chain id: " ++ e)], .exit 1⟩
  | chainNil (cfg : EthConfig) (k : PrivateKey) (e : GoError) (o : TransactOpts)
      (h0 : config = some cfg) (h1 : net.ChainID = .err e)
      (h2 : lib.ToECDSAUnsafe (lib.FromHex cfg.PrivateKey) = .key k)
      (h3 : lib.NewKeyedTransactorWithChainID k none = .ok o) :
      SendPath lib net config proofChain chainHeight resultSegment replicaURL blockReplica
        ⟨[.chainID (.err e), .logError ("error in getting transaction options: " ++ e),
          .newKeyedTransactor k none (.ok o)], .panic nilPanic⟩
  | bindErr (cfg : EthConfig) (id : Int) (k : PrivateKey) (o : TransactOpts) (e : GoError)
      (h0 : config = some cfg)
      (h1 : net.ChainID = .ok id)
      (h2 : lib.ToECDSAUnsafe (lib.FromHex cfg.PrivateKey) = .key k)
      (h3 : lib.NewKeyedTransactorWithChainID k (some id) = .ok o)
      (h4 : net.NewProofChain (lib.HexToAddress proofChain) = .err e) :
      SendPath lib net config proofChain chainHeight resultSegment replicaURL blockReplica
        ⟨[.chainID (.ok id), .newKeyedTransactor k (some id) (.ok o),
          .newProofChain (lib.HexToAddress proofChain) (.err e),
          .logError ("error binding to deployed contract: " ++ e), .send ""], .ret ()⟩
  | marshalErr (cfg : EthConfig) (id : Int) (k : PrivateKey) (o : TransactOpts)
      (c : ProofChain) (e : GoError)
      (h0 : config = some cfg)
      (h1 : net.ChainID = .ok id)
      (h2 : lib.ToECDSAUnsafe (lib.FromHex cfg.PrivateKey) = .key k)
      (h3 : lib.NewKeyedTransactorWithChainID k (some id) = .ok o)
      (h4 : net.NewProofChain (lib.HexToAddress proofChain) = .ok c)
      (h5 : lib.Marshal resultSegment = .err e) :
      SendPath lib net config proofChain chainHeight resultSegment replicaURL blockReplica
        ⟨[.chainID (.ok id), .newKeyedTransactor k (some id) (.ok o),
          .newProofChain (lib.HexToAddress proofChain) (.ok c),
          .marshal resultSegment (.err e),
          .logError ("error in JSON marshaling result segment: " ++ e), .send ""], .ret ()⟩
  | replicaNil (cfg : EthConfig) (id : Int) (k : PrivateKey) (o : TransactOpts)
      (c : ProofChain) (j : Bytes)
      (h0 : config = some cfg)
      (h1 : net.ChainID = .ok id)
      (h2 : lib.ToECDSAUnsafe (lib.FromHex cfg.PrivateKey) = .key k)
      (h3 : lib.NewKeyedTransactorWithChainID k (some id) = .ok o)
      (h4 : net.NewProofChain (lib.HexToAddress proofChain) = .ok c)
      (h5 : lib.Marshal resultSegment = .ok j)
      (hb : blockReplica = none) :
      SendPath lib net config proofChain chainHeight resultSegment replicaURL blockReplica
        ⟨[.chainID (.ok id), .newKeyedTransactor k (some id) (.ok o),
          .newProofChain (lib.HexToAddress proofChain) (.ok c),
          .marshal resultSegment (.ok j), .sum256 (some j) (lib.Sum256 (some j))],
          .panic nilPanic⟩
  | submitErr (cfg : EthConfig) (id : Int) (k : PrivateKey) (o : TransactOpts)
      (c : ProofChain) (j : Bytes)
      (b : BlockReplica) (e : GoError)
      (h0 : config = some cfg)
      (h1 : net.ChainID = .ok id)
      (h2 : lib.ToECDSAUnsafe (lib.FromHex cfg.PrivateKey) = .key k)
      (h3 : lib.NewKeyedTransactorWithChainID k (some id) = .ok o)
      (h4 : net.NewProofChain (lib.HexToAddress proofChain) = .ok c)
      (h5 : lib.Marshal resultSegment = .ok j)
      (hb : blockReplica = some b)
      (h6 : net.SubmitBlockSpecimenProof c
        ⟨some o, b.NetworkId, chainHeight, b.Hash, lib.Sum256 (some j), replicaURL⟩ = .err e) :
      SendPath lib net config proofChain chainHeight resultSegment replicaURL blockReplica
        ⟨[.chainID (.ok id), .newKeyedTransactor k (some id) (.ok o),
          .newProofChain (lib.HexToAddress proofChain) (.ok c),
          .marshal resultSegment (.ok j), .sum256 (some j) (lib.Sum256 (some j)),
          .submit c ⟨some o, b.NetworkId, chainHeight, b.Hash, lib.Sum256 (some j), replicaURL⟩
            (.err e),
          .logError ("error calling deployed contract: " ++ e), .send ""], .ret ()⟩
  | waitErr (cfg : EthConfig) (id : Int) (k : PrivateKey) (o : TransactOpts)
      (c : ProofChain) (j : Bytes)
      (b : BlockReplica) (tx : Transaction) (e : GoError)
      (h0 : config = some cfg)
      (h1 : net.ChainID = .ok id)
      (h2 : lib.ToECDSAUnsafe (lib.FromHex cfg.PrivateKey) = .key k)
      (h3 : lib.NewKeyedTransactorWithChainID k (some id) = .ok o)
      (h4 : net.NewProofChain (lib.HexToAddress proofChain) = .ok c)
      (h5 : lib.Marshal resultSegment = .ok j)
      (hb : blockReplica = some b)
      (h6 : net.SubmitBlockSpecimenProof c
        ⟨some o, b.NetworkId, chainHeight, b.Hash, lib.Sum256 (some j), replicaURL⟩ = .ok tx)
      (h7 : net.WaitMined tx = .err e) :
      SendPath lib net config proofChain chainHeight resultSegment replicaURL blockReplica
        ⟨[.chainID (.ok id), .newKeyedTransactor k (some id) (.ok o),
          .newProofChain (lib.HexToAddress proofChain) (.ok c),
          .marshal resultSegment (.ok j), .sum256 (some j) (lib.Sum256 (some j)),
          .submit c ⟨some o, b.NetworkId, chainHeight, b.Hash, lib.Sum256 (some j), replicaURL⟩
            (.ok tx),
          .waitMined tx (.err e)], .panic nilPanic⟩
  | reverted (cfg : EthConfig) (id : Int) (k : PrivateKey) (o : TransactOpts)
      (c : ProofChain) (j : Bytes)
      (b : BlockReplica) (tx : Transaction) (r : Receipt)
      (h0 : config = some cfg)
      (h1 : net.ChainID = .ok id)
      (h2 : lib.ToECDSAUnsafe (lib.FromHex cfg.PrivateKey) = .key k)
      (h3 : lib.NewKeyedTransactorWithChainID k (some id) = .ok o)
      (h4 : net.NewProofChain (lib.HexToAddress proofChain) = .ok c)
      (h5 : lib.Marshal resultSegment = .ok j)
      (hb : blockReplica = some b)
      (h6 : net.SubmitBlockSpecimenProof c
        ⟨some o, b.NetworkId, chainHeight, b.Hash, lib.Sum256 (some j), replicaURL⟩ = .ok tx)
      (h7 : net.WaitMined tx = .ok r)
      (h8 : r.Status ≠ ReceiptStatusSuccessful) :
      SendPath lib net config proofChain chainHeight resultSegment replicaURL blockReplica
        ⟨[.chainID (.ok id), .newKeyedTransactor k (some id) (.ok o),
          .newProofChain (lib.HexToAddress proofChain) (.ok c),
          .marshal resultSegment (.ok j), .sum256 (some j) (lib.Sum256 (some j)),
          .submit c ⟨some o, b.NetworkId, chainHeight, b.Hash, lib.Sum256 (some j), replicaURL⟩
            (.ok tx),
          .waitMined tx (.ok r)], .panic nilPanic⟩
  | mined (cfg : EthConfig) (id : Int) (k : PrivateKey) (o : TransactOpts)
      (c : ProofChain) (j : Bytes)
      (b : BlockReplica) (tx : Transaction) (r : Receipt)
      (h0 : config = some cfg)
      (h1 : net.ChainID = .ok id)
      (h2 : lib.ToECDSAUnsafe (lib.FromHex cfg.PrivateKey) = .key k)
      (h3 : lib.NewKeyedTransactorWithChainID k (some id) = .ok o)
      (h4 : net.NewProofChain (lib.HexToAddress proofChain) = .ok c)
      (h5 : lib.Marshal resultSegment = .ok j)
      (hb : blockReplica = some b)
      (h6 : net.SubmitBlockSpecimenProof c
        ⟨some o, b.NetworkId, chainHeight, b.Hash, lib.Sum256 (some j), replicaURL⟩ = .ok tx)
      (h7 : net.WaitMined tx = .ok r)
      (h8 : r.Status = ReceiptStatusSuccessful) :
      SendPath lib net config proofChain chainHeight resultSegment replicaURL blockReplica
        ⟨[.chainID (.ok id), .newKeyedTransactor k (some id) (.ok o),
          .newProofChain (lib.HexToAddress proofChain) (.ok c),
          .marshal resultSegment (.ok j), .sum256 (some j) (lib.Sum256 (some j)),
          .submit c ⟨some o, b.NetworkId, chainHeight, b.Hash, lib.Sum256 (some j), replicaURL⟩
            (.ok tx),
          .waitMined tx (.ok r), .send (Hash.String r.TxHash)], .ret ()⟩

/-! ## Evaluation lemmas -/

theorem bind_eq {α β : Type} (x : Go α) (f : α → Go β) : (x >>= f) = Go.bind x f := rfl

theorem pure_eq {α : Type} (a : α) : (pure a : Go α) = Go.pure a := rfl

theorem bind_ret {α β : Type} (t : List Event) (a : α) (f : α → Go β) :
    Go.bind ⟨t, .ret a⟩ f = (f a).prepend t := rfl

theorem bind_exit {α β : Type} (t : List Event) (c : Nat) (f : α → Go β) :
    Go.bind ⟨t, .exit c⟩ f = ⟨t, .exit c⟩ := rfl

theorem bind_panic {α β : Type} (t : List Event) (m : String) (f : α → Go β) :
    Go.bind ⟨t, .panic m⟩ f = ⟨t, .panic m⟩ := rfl

theorem prepend_mk {α : Type} (t u : List Event) (o : Outcome α) :
    Go.prepend t ⟨u, o⟩ = ⟨t ++ u, o⟩ := rfl

/-- Every run of `getTransactionOpts` follows one of the six paths. -/
theorem getTransactionOpts_path (lib : Lib) (net : Net) (config : Option EthConfig) :
    OptsPath lib net config (getTransactionOpts lib net config) := by
  cases h0 : config with
  | none =>
    have h : OptsPath lib net none _ := OptsPath.configNil rfl
    simpa [getTransactionOpts, bind_eq, bind_panic, deref] using h
  | some cfg =>
    cases h2 : lib.ToECDSAUnsafe (lib.FromHex cfg.PrivateKey) with
    | panics m =>
      have h : OptsPath lib net (some cfg) _ := OptsPath.keyPanic cfg m rfl h2
      cases h1 : net.ChainID <;>
        simpa [getTransactionOpts, bind_eq, pure_eq, bind_ret, bind_exit, bind_panic,
          prepend_mk, Go.pure, call, callKey, emit, logError, logFatalf, deref, h1, h2,
          Res.ptr, Res.error, chainIDEvents] using h
    | nilKey =>
      have h : OptsPath lib net (some cfg) _ := OptsPath.keyNil cfg rfl h2
      cases h1 : net.ChainID <;>
        simpa [getTransactionOpts, bind_eq, pure_eq, bind_ret, bind_exit, bind_panic,
          prepend_mk, Go.pure, call, callKey, emit, logError, logFatalf, deref, h1, h2,
          Res.ptr, Res.error, chainIDEvents] using h
    | key k =>
      cases h3 : lib.NewKeyedTransactorWithChainID k net.ChainID.ptr with
      | err e =>
        have h : OptsPath lib net (some cfg) _ := OptsPath.fatal cfg k e rfl h2 h3
        cases h1 : net.ChainID <;> simp only [h1, Res.ptr] at h3 <;>
          simpa [getTransactionOpts, bind_eq, pure_eq, bind_ret, bind_exit, bind_panic,
            prepend_mk, Go.pure, call, callKey, emit, logError, logFatalf, deref, h1, h2, h3,
            Res.ptr, Res.error, chainIDEvents] using h
      | ok o =>
        cases h1 : net.ChainID with
        | err e =>
          simp only [h1, Res.ptr] at h3
          have h : OptsPath lib net (some cfg) _ := OptsPath.chainNil cfg k e o rfl h1 h2 h3
          simpa [getTransactionOpts, bind_eq, pure_eq, bind_ret, bind_exit, bind_panic,
            prepend_mk, Go.pure, call, callKey, emit, logError, logFatalf, deref, h1, h2, h3,
            Res.ptr, Res.error] using h
        | ok id =>
          simp only [h1, Res.ptr] at h3
          have h : OptsPath lib net (some cfg) _ := OptsPath.ok cfg id k o rfl h1 h2 h3
          simpa [getTransactionOpts, bind_eq, pure_eq, bind_ret, bind_exit, bind_panic,
            prepend_mk, Go.pure, call, callKey, emit, logError, logFatalf, deref, h1, h2, h3,
            Res.ptr, Res.error] using h

/-- Every run of `SendBlockReplicaProofTx` follows one of the twelve paths. -/
theorem sendBlockReplicaProofTx_path (lib : Lib) (net : Net) (config : Option EthConfig)
    (proofChain : String) (chainHeight chainLen : Nat) (resultSegment : ByteSlice)
    (replicaURL : String) (blockReplica : Option BlockReplica) :
    SendPath lib net config proofChain chainHeight resultSegment replicaURL blockReplica
      (SendBlockReplicaProofTx lib net config proofChain chainHeight chainLen resultSegment
        replicaURL blockReplica) := by
  have hp := getTransactionOpts_path lib net config
  generalize hg : getTransactionOpts lib net config = g at hp
  cases hp with
  | configNil h0 =>
    have h : SendPath lib net config proofChain chainHeight resultSegment replicaURL
      blockReplica _ := SendPath.configNil h0
    simpa [SendBlockReplicaProofTx, bind_eq, hg, bind_panic] using h
  | keyPanic cfg m h0 h2 =>
    have h : SendPath lib net config proofChain chainHeight resultSegment replicaURL
      blockReplica _ := SendPath.keyPanic cfg m h0 h2
    simpa [SendBlockReplicaProofTx, bind_eq, hg, bind_panic] using h
  | keyNil cfg h0 h2 =>
    have h : SendPath lib net config proofChain chainHeight resultSegment replicaURL
      blockReplica _ := SendPath.keyNil cfg h0 h2
    simpa [SendBlockReplicaProofTx, bind_eq, hg, bind_panic] using h
  | fatal cfg k e h0 h2 h3 =>
    have h : SendPath lib net config proofChain chainHeight resultSegment replicaURL
      blockReplica _ := SendPath.fatal cfg k e h0 h2 h3
    simpa [SendBlockReplicaProofTx, bind_eq, hg, bind_exit] using h
  | chainNil cfg k e o h0 h1 h2 h3 =>
    have h : SendPath lib net config proofChain chainHeight resultSegment replicaURL
      blockReplica _ := SendPath.chainNil cfg k e o h0 h1 h2 h3
    simpa [SendBlockReplicaProofTx, bind_eq, hg, bind_panic] using h
  | ok cfg id k o h0 h1 h2 h3 =>
    cases h4 : net.NewProofChain (lib.HexToAddress proofChain) with
    | err e =>
      have h : SendPath lib net config proofChain chainHeight resultSegment replicaURL
        blockReplica _ := SendPath.bindErr cfg id k o e h0 h1 h2 h3 h4
      simpa [SendBlockReplicaProofTx, bind_eq, pure_eq, bind_ret, bind_exit, bind_panic,
        prepend_mk, Go.pure, call, emit, logError, send, deref, hg, h4, Res.ptr, Res.error]
        using h
    | ok c =>
      cases h5 : lib.Marshal resultSegment with
      | err e =>
        have h : SendPath lib net config proofChain chainHeight resultSegment replicaURL
          blockReplica _ := SendPath.marshalErr cfg id k o c e h0 h1 h2 h3 h4 h5
        simpa [SendBlockReplicaProofTx, bind_eq, pure_eq, bind_ret, bind_exit, bind_panic,
          prepend_mk, Go.pure, call, emit, logError, send, deref, hg, h4, h5, Res.ptr,
          Res.error] using h
      | ok j =>
        cases hb : blockReplica with
        | none =>
          have h : SendPath lib net config proofChain chainHeight resultSegment replicaURL
            none _ := SendPath.replicaNil cfg id k o c j h0 h1 h2 h3 h4 h5 rfl
          simpa [SendBlockReplicaProofTx, bind_eq, pure_eq, bind_ret, bind_exit, bind_panic,
            prepend_mk, Go.pure, call, emit, logError, send, deref, hg, h4, h5, Res.ptr,
            Res.error] using h
        | some b =>
          cases h6 : net.SubmitBlockSpecimenProof c ⟨some o, b.NetworkId, chainHeight,
              b.Hash, lib.Sum256 (some j), replicaURL⟩ with
          | err e =>
            have h : SendPath lib net config proofChain chainHeight resultSegment replicaURL
              (some b) _ := SendPath.submitErr cfg id k o c j b e h0 h1 h2 h3 h4 h5 rfl h6
            simpa [SendBlockReplicaProofTx, bind_eq, pure_eq, bind_ret, bind_exit, bind_panic,
              prepend_mk, Go.pure, call, emit, logError, send, deref, hg, h4, h5, h6, Res.ptr,
              Res.error] using h
          | ok tx =>
            cases h7 : net.WaitMined tx with
            | err e =>
              have h : SendPath lib net config proofChain chainHeight resultSegment
                replicaURL (some b) _ :=
                SendPath.waitErr cfg id k o c j b tx e h0 h1 h2 h3 h4 h5 rfl h6 h7
              simpa [SendBlockReplicaProofTx, bind_eq, pure_eq, bind_ret, bind_exit,
                bind_panic, prepend_mk, Go.pure, call, emit, logError, send, deref, hg, h4, h5,
                h6, h7, Res.ptr, Res.error] using h
            | ok r =>
              by_cases h8 : r.Status = ReceiptStatusSuccessful
              · have h : SendPath lib net config proofChain chainHeight resultSegment
                  replicaURL (some b) _ :=
                  SendPath.mined cfg id k o c j b tx r h0 h1 h2 h3 h4 h5 rfl h6 h7 h8
                simpa [SendBlockReplicaProofTx, bind_eq, pure_eq, bind_ret, bind_exit,
                  bind_panic, prepend_mk, Go.pure, call, emit, logError, send, deref, hg, h4,
                  h5, h6, h7, h8, Res.ptr, Res.error] using h
              · have h : SendPath lib net config proofChain chainHeight resultSegment
                  replicaURL (some b) _ :=
                  SendPath.reverted cfg id k o c j b tx r h0 h1 h2 h3 h4 h5 rfl h6 h7 h8
                simpa [SendBlockReplicaProofTx, bind_eq, pure_eq, bind_ret, bind_exit,
                  bind_panic, prepend_mk, Go.pure, call, emit, logError, send, deref, hg, h4,
                  h5, h6, h7, h8, Res.ptr, Res.error] using h

/-! ## Lemmas on the observations -/

theorem writes_chainIDEvents (r : Res Int) : writes (chainIDEvents r) = [] := by
  cases r <;> rfl

theorem submitCalls_chainIDEvents (r : Res Int) : submitCalls (chainIDEvents r) = [] := by
  cases r <;> rfl

theorem waitCalls_chainIDEvents (r : Res Int) : waitCalls (chainIDEvents r) = [] := by
  cases r <;> rfl

theorem mem_chainIDEvents (ev : Event) (r : Res Int) :
    ev ∈ chainIDEvents r ↔ ev = .chainID r ∨
      ∃ e, r = .err e ∧ ev = .logError ("error in getting transaction options: " ++ e) := by
  cases r <;> simp [chainIDEvents]

theorem writes_append (t u : List Event) : writes (t ++ u) = writes t ++ writes u := by
  simp [writes]

theorem hashString_ne_empty (h : Hash) : Hash.String h ≠ "" := by
  intro he
  have := congrArg String.length he
  simp only [Hash.String, String.length_append] at this
  have h2 : ("0x" : String).length = 2 := by decide
  have h0 : ("" : String).length = 0 := by decide
  omega


theorem submitCalls_append (t u : List Event) :
    submitCalls (t ++ u) = submitCalls t ++ submitCalls u := by
  simp [submitCalls]

theorem waitCalls_append (t u : List Event) :
    waitCalls (t ++ u) = waitCalls t ++ waitCalls u := by
  simp [waitCalls]

/-! ## The library on known inputs -/

/-- The digest of `abc` is the one of the SHA-256 standard,
`ba7816bf8f01cfea414140de5dae2223b00361a396177a9cb410ff61f20015ad`. -/
theorem goSum256_abc :
    (goSum256 (some [97, 98, 99])).bytes =
      [0xba, 0x78, 0x16, 0xbf, 0x8f, 0x01, 0xcf, 0xea, 0x41, 0x41, 0x40, 0xde, 0x5d, 0xae, 0x22,
        0x23, 0xb0, 0x03, 0x61, 0xa3, 0x96, 0x17, 0x7a, 0x9c, 0xb4, 0x10, 0xff, 0x61, 0xf2, 0x00,
        0x15, 0xad] := by
  decide

/-- The nil slice and the empty slice have the same digest, the one of the
empty message, `e3b0…b855`: `sha256.Sum256` reads the bytes only. -/
theorem goSum256_nil :
    goSum256 none = goSum256 (some []) ∧
    (goSum256 none).bytes.take 4 = [0xe3, 0xb0, 0xc4, 0x42] := by
  decide

/-- The JSON text of the nil slice is `null`, the one of the empty slice is two
double quotes, and the one of the payload `result` is its base64 text in double
quotes. -/
theorem goMarshal_known :
    goMarshal none = .ok [110, 117, 108, 108] ∧
    goMarshal (some []) = .ok [34, 34] ∧
    goMarshal payload = .ok scenarioJSON := by
  decide

/-! ## What `getTransactionOpts` hands back -/

/-- Whenever `getTransactionOpts` returns, the error it returns is nil: the
error of the chain id query is overwritten by the result of the transactor
construction, and a non-nil result of that one ends in `log.Fatalf`. -/
theorem getTransactionOpts_returns_nil_error (lib : Lib) (net : Net) (config : Option EthConfig)
    (a : Address) (o : Option TransactOpts) (n : Nat) (err : Option GoError)
    (h : (getTransactionOpts lib net config).out = .ret (a, o, n, err)) : err = none := by
  have hp := getTransactionOpts_path lib net config
  generalize getTransactionOpts lib net config = g at hp h
  cases hp <;> simp_all

/-- After a failed chain id query `getTransactionOpts` does not return at all:
the nil chain id ends the run in `log.Fatalf` or in a panic. -/
theorem getTransactionOpts_no_return_after_failed_query (lib : Lib) (net : Net)
    (config : Option EthConfig) (e : GoError) (h1 : net.ChainID = .err e)
    (v : Address × Option TransactOpts × Nat × Option GoError) :
    (getTransactionOpts lib net config).out ≠ .ret v := by
  have hp := getTransactionOpts_path lib net config
  generalize getTransactionOpts lib net config = g at hp
  cases hp <;> simp_all

/-! ## Runs that write nothing -/

/-- After a failed chain id query nothing is ever written to the channel: the
run makes no contract call and does not return. -/
theorem chainID_error_writes_nothing (lib : Lib) (net : Net) (config : Option EthConfig)
    (proofChain : String) (chainHeight chainLen : Nat) (resultSegment : ByteSlice)
    (replicaURL : String) (blockReplica : Option BlockReplica) (e : GoError)
    (h1 : net.ChainID = .err e) :
    writes (SendBlockReplicaProofTx lib net config proofChain chainHeight chainLen
      resultSegment replicaURL blockReplica).trace = [] ∧
    submitCalls (SendBlockReplicaProofTx lib net config proofChain chainHeight chainLen
      resultSegment replicaURL blockReplica).trace = [] ∧
    (SendBlockReplicaProofTx lib net config proofChain chainHeight chainLen resultSegment
      replicaURL blockReplica).out ≠ .ret () := by
  have hp := sendBlockReplicaProofTx_path lib net config proofChain chainHeight chainLen
    resultSegment replicaURL blockReplica
  generalize SendBlockReplicaProofTx lib net config proofChain chainHeight chainLen
    resultSegment replicaURL blockReplica = run at hp ⊢
  cases hp <;>
    simp only [writes_append, writes_chainIDEvents, submitCalls_append,
      submitCalls_chainIDEvents] <;>
    simp_all [writes, submitCalls]

/-- A wait that returns an error, hence a nil receipt, ends the run in a panic
with nothing written. -/
theorem wait_error_writes_nothing (lib : Lib) (net : Net) (config : Option EthConfig)
    (proofChain : String) (chainHeight chainLen : Nat) (resultSegment : ByteSlice)
    (replicaURL : String) (blockReplica : Option BlockReplica) (tx : Transaction) (e : GoError)
    (h : Event.waitMined tx (.err e) ∈ (SendBlockReplicaProofTx lib net config proofChain
      chainHeight chainLen resultSegment replicaURL blockReplica).trace) :
    writes (SendBlockReplicaProofTx lib net config proofChain chainHeight chainLen
      resultSegment replicaURL blockReplica).trace = [] ∧
    (SendBlockReplicaProofTx lib net config proofChain chainHeight chainLen resultSegment
      replicaURL blockReplica).out = .panic nilPanic := by
  have hp := sendBlockReplicaProofTx_path lib net config proofChain chainHeight chainLen
    resultSegment replicaURL blockReplica
  generalize SendBlockReplicaProofTx lib net config proofChain chainHeight chainLen
    resultSegment replicaURL blockReplica = run at hp h ⊢
  cases hp <;>
    simp only [writes_append, writes_chainIDEvents, mem_chainIDEvents, List.mem_append]
      at h ⊢ <;>
    simp_all [writes]

/-- A wait that returns a receipt whose status is not successful ends the run
in a panic with nothing written. -/
theorem reverted_writes_nothing (lib : Lib) (net : Net) (config : Option EthConfig)
    (proofChain : String) (chainHeight chainLen : Nat) (resultSegment : ByteSlice)
    (replicaURL : String) (blockReplica : Option BlockReplica) (tx : Transaction) (r : Receipt)
    (h : Event.waitMined tx (.ok r) ∈ (SendBlockReplicaProofTx lib net config proofChain
      chainHeight chainLen resultSegment replicaURL blockReplica).trace)
    (hs : r.Status ≠ ReceiptStatusSuccessful) :
    writes (SendBlockReplicaProofTx lib net config proofChain chainHeight chainLen
      resultSegment replicaURL blockReplica).trace = [] ∧
    (SendBlockReplicaProofTx lib net config proofChain chainHeight chainLen resultSegment
      replicaURL blockReplica).out = .panic nilPanic := by
  have hp := sendBlockReplicaProofTx_path lib net config proofChain chainHeight chainLen
    resultSegment replicaURL blockReplica
  generalize SendBlockReplicaProofTx lib net config proofChain chainHeight chainLen
    resultSegment replicaURL blockReplica = run at hp h ⊢
  cases hp <;>
    simp only [writes_append, writes_chainIDEvents, mem_chainIDEvents, List.mem_append]
      at h ⊢ <;>
    simp_all [writes]

/-- No run of `SendBlockReplicaProofTx` writes two values to the `txHash`
channel, and a run that returns to its caller has written exactly one. A failed
construction of the keyed transactor ends the process in `log.Fatalf` with
nothing written. -/
theorem writes_at_most_once (lib : Lib) (net : Net) (config : Option EthConfig)
    (proofChain : String) (chainHeight chainLen : Nat) (resultSegment : ByteSlice)
    (replicaURL : String) (blockReplica : Option BlockReplica) :
    let run := SendBlockReplicaProofTx lib net config proofChain chainHeight chainLen
      resultSegment replicaURL blockReplica
    (writes run.trace).length ≤ 1 ∧
    (run.out = .ret () → (writes run.trace).length = 1) ∧
    (∀ k cid e, Event.newKeyedTransactor k cid (.err e) ∈ run.trace →
      run.out = .exit 1 ∧ writes run.trace = []) := by
  have hp := sendBlockReplicaProofTx_path lib net config proofChain chainHeight chainLen
    resultSegment replicaURL blockReplica
  dsimp only
  generalize SendBlockReplicaProofTx lib net config proofChain chainHeight chainLen
    resultSegment replicaURL blockReplica = run at hp ⊢
  cases hp <;>
    simp only [writes_append, writes_chainIDEvents, mem_chainIDEvents, List.mem_append] <;>
    simp_all [writes]

/-! ## The claims -/

/-- Claim C1, the code at the failing inputs. The claim asks for exactly one
value on the channel for every combination of collaborator results. On three
of the combinations it names the run ends without any write, and without
returning: when `WaitMined` returns a nil receipt with an error (a panic on
`receipt.Status`), when it returns a receipt whose status is not successful (a
panic on `err.Error()`), and when `ChainID` fails (the nil chain id is refused
by the transactor construction and `log.Fatalf` ends the process). -/
theorem sendBlockReplicaProofTx_zero_writes :
    ((writes (scenario goLib timeoutNet).trace).length = 0 ∧
      (scenario goLib timeoutNet).out ≠ .ret ()) ∧
    ((writes (scenario goLib revertNet).trace).length = 0 ∧
      (scenario goLib revertNet).out ≠ .ret ()) ∧
    ((writes (scenario goLib noChainNet).trace).length = 0 ∧
      (scenario goLib noChainNet).out ≠ .ret ()) := by
  decide

/-- Claim C2. In a run where `ChainID` succeeded, the keyed transactor was
built, the contract was bound, `SubmitBlockSpecimenProof` returned a pending
transaction without error and `WaitMined` returned a receipt with a nil error
and status `ReceiptStatusSuccessful`, exactly one value is written to the
channel: the string form of the receipt's `TxHash`, which is not the empty
string; and the run returns. -/
theorem sendBlockReplicaProofTx_mined (lib : Lib) (net : Net) (config : Option EthConfig)
    (proofChain : String) (chainHeight chainLen : Nat) (resultSegment : ByteSlice)
    (replicaURL : String) (blockReplica : Option BlockReplica)
    (id : Int) (k : PrivateKey) (o : TransactOpts) (addr : Address) (c : ProofChain)
    (args : SubmitArgs) (tx : Transaction) (r : Receipt)
    (hChain : Event.chainID (.ok id) ∈ (SendBlockReplicaProofTx lib net config proofChain
      chainHeight chainLen resultSegment replicaURL blockReplica).trace)
    (hOpts : Event.newKeyedTransactor k (some id) (.ok o) ∈ (SendBlockReplicaProofTx lib net
      config proofChain chainHeight chainLen resultSegment replicaURL blockReplica).trace)
    (hBind : Event.newProofChain addr (.ok c) ∈ (SendBlockReplicaProofTx lib net config
      proofChain chainHeight chainLen resultSegment replicaURL blockReplica).trace)
    (hSubmit : Event.submit c args (.ok tx) ∈ (SendBlockReplicaProofTx lib net config
      proofChain chainHeight chainLen resultSegment replicaURL blockReplica).trace)
    (hWait : Event.waitMined tx (.ok r) ∈ (SendBlockReplicaProofTx lib net config proofChain
      chainHeight chainLen resultSegment replicaURL blockReplica).trace)
    (hStatus : r.Status = ReceiptStatusSuccessful) :
    writes (SendBlockReplicaProofTx lib net config proofChain chainHeight chainLen
      resultSegment replicaURL blockReplica).trace = [Hash.String r.TxHash] ∧
    Hash.String r.TxHash ≠ "" ∧
    (SendBlockReplicaProofTx lib net config proofChain chainHeight chainLen resultSegment
      replicaURL blockReplica).out = .ret () := by
  have hp := sendBlockReplicaProofTx_path lib net config proofChain chainHeight chainLen
    resultSegment replicaURL blockReplica
  generalize SendBlockReplicaProofTx lib net config proofChain chainHeight chainLen
    resultSegment replicaURL blockReplica = run at hp hChain hOpts hBind hSubmit hWait ⊢
  refine ⟨?_, hashString_ne_empty _, ?_⟩ <;>
  cases hp <;>
    simp only [writes_append, writes_chainIDEvents, mem_chainIDEvents, List.mem_append]
      at hChain hOpts hBind hSubmit hWait ⊢ <;>
    simp_all [writes]

/-- Claim C2, witness: the scenario of the specification on the ledger where
every step succeeds; the value written is the hex text of the receipt's hash. -/
theorem sendBlockReplicaProofTx_mined_witness :
    Event.chainID (.ok 1) ∈ (scenario goLib okNet).trace ∧
    Event.newKeyedTransactor scenarioKey (some 1) (.ok scenarioOpts)
      ∈ (scenario goLib okNet).trace ∧
    Event.newProofChain scenarioContract.address (.ok scenarioContract)
      ∈ (scenario goLib okNet).trace ∧
    Event.submit scenarioContract scenarioArgs (.ok pendingTx) ∈ (scenario goLib okNet).trace ∧
    Event.waitMined pendingTx (.ok minedReceipt) ∈ (scenario goLib okNet).trace ∧
    minedReceipt.Status = ReceiptStatusSuccessful ∧
    writes (scenario goLib okNet).trace
      = ["0x0000000000000000000000000000000000000000000000000000000000000abc"] :=
  ⟨by decide, by decide, by decide, by decide, by decide, by decide,
    (sendBlockReplicaProofTx_mined goLib okNet (some ⟨"0x01"⟩)
      "0x0000000000000000000000000000000000000abc" 5 1 payload "ipfs://replica"
      (some ⟨1, hashDEAD⟩) 1 scenarioKey scenarioOpts scenarioContract.address scenarioContract
      scenarioArgs pendingTx minedReceipt (by decide) (by decide) (by decide) (by decide)
      (by decide) (by decide)).1⟩

/-- Claim C3, the code at the failing input. The chain id query fails; the
error is logged, but the run goes on with the nil chain id, the transactor
construction refuses it and `log.Fatalf` ends the process. Nothing is written
to the channel; the claim asks for the empty string. -/
theorem sendBlockReplicaProofTx_chainID_error :
    (scenario goLib noChainNet).trace =
      [.chainID (.err "connection refused"),
        .logError "error in getting transaction options: connection refused",
        .newKeyedTransactor scenarioKey none (.err "no chain id specified"),
        .logFatal "error getting new keyed transactor with chain id: no chain id specified"] ∧
    (scenario goLib noChainNet).out = .exit 1 ∧
    writes (scenario goLib noChainNet).trace = [] ∧
    submitCalls (scenario goLib noChainNet).trace = [] := by
  decide

/-- Claim C4, the code at the failing input. The transaction is mined but
reverted: `WaitMined` returns the receipt with a nil error. The branch for a
failed status builds its log line from `err.Error()` with `err` nil, which
panics before the channel send. Nothing is written and the run does not
return; the claim asks for the empty string and a normal return. -/
theorem sendBlockReplicaProofTx_reverted :
    (scenario goLib revertNet).trace.getLast?
      = some (.waitMined pendingTx (.ok revertedReceipt)) ∧
    (scenario goLib revertNet).out = .panic nilPanic ∧
    writes (scenario goLib revertNet).trace = [] := by
  decide

/-- Claim C5, the code at the failing input. The wait ends with the deadline:
`WaitMined` returns a nil receipt and an error. The status of the nil receipt
is read before the error is looked at, which panics. Nothing is written and
the run does not return; the claim asks for the empty string and a normal
return. -/
theorem sendBlockReplicaProofTx_wait_error :
    (scenario goLib timeoutNet).trace.getLast?
      = some (.waitMined pendingTx (.err "context deadline exceeded")) ∧
    (scenario goLib timeoutNet).out = .panic nilPanic ∧
    writes (scenario goLib timeoutNet).trace = [] := by
  decide

/-- Claim C6. In a run where the transactor was built, the contract was bound
and the `SubmitBlockSpecimenProof` call returned an error, the empty string is
the one value written to the channel, the run returns, and `WaitMined` is never
called. -/
theorem sendBlockReplicaProofTx_submit_error (lib : Lib) (net : Net) (config : Option EthConfig)
    (proofChain : String) (chainHeight chainLen : Nat) (resultSegment : ByteSlice)
    (replicaURL : String) (blockReplica : Option BlockReplica)
    (k : PrivateKey) (cid : Option Int) (o : TransactOpts) (addr : Address) (c : ProofChain)
    (args : SubmitArgs) (e : GoError)
    (hOpts : Event.newKeyedTransactor k cid (.ok o) ∈ (SendBlockReplicaProofTx lib net
      config proofChain chainHeight chainLen resultSegment replicaURL blockReplica).trace)
    (hBind : Event.newProofChain addr (.ok c) ∈ (SendBlockReplicaProofTx lib net config
      proofChain chainHeight chainLen resultSegment replicaURL blockReplica).trace)
    (hSubmit : Event.submit c args (.err e) ∈ (SendBlockReplicaProofTx lib net config
      proofChain chainHeight chainLen resultSegment replicaURL blockReplica).trace) :
    writes (SendBlockReplicaProofTx lib net config proofChain chainHeight chainLen
      resultSegment replicaURL blockReplica).trace = [""] ∧
    (SendBlockReplicaProofTx lib net config proofChain chainHeight chainLen resultSegment
      replicaURL blockReplica).out = .ret () ∧
    waitCalls (SendBlockReplicaProofTx lib net config proofChain chainHeight chainLen
      resultSegment replicaURL blockReplica).trace = [] := by
  have hp := sendBlockReplicaProofTx_path lib net config proofChain chainHeight chainLen
    resultSegment replicaURL blockReplica
  generalize SendBlockReplicaProofTx lib net config proofChain chainHeight chainLen
    resultSegment replicaURL blockReplica = run at hp hOpts hBind hSubmit ⊢
  cases hp <;>
    simp only [writes_append, writes_chainIDEvents, waitCalls_append, waitCalls_chainIDEvents,
      mem_chainIDEvents, List.mem_append] at hOpts hBind hSubmit ⊢ <;>
    simp_all [writes, waitCalls]

/-- Claim C6, witness: the scenario on the ledger whose contract rejects the
call. -/
theorem sendBlockReplicaProofTx_submit_error_witness :
    Event.newKeyedTransactor scenarioKey (some 1) (.ok scenarioOpts)
      ∈ (scenario goLib rejectNet).trace ∧
    Event.newProofChain scenarioContract.address (.ok scenarioContract)
      ∈ (scenario goLib rejectNet).trace ∧
    Event.submit scenarioContract scenarioArgs (.err "insufficient funds")
      ∈ (scenario goLib rejectNet).trace ∧
    writes (scenario goLib rejectNet).trace = [""] ∧
    (scenario goLib rejectNet).out = .ret () ∧
    waitCalls (scenario goLib rejectNet).trace = [] :=
  ⟨by decide, by decide, by decide,
    sendBlockReplicaProofTx_submit_error goLib rejectNet (some ⟨"0x01"⟩)
      "0x0000000000000000000000000000000000000abc" 5 1 payload "ipfs://replica"
      (some ⟨1, hashDEAD⟩) scenarioKey (some 1) scenarioOpts scenarioContract.address
      scenarioContract scenarioArgs "insufficient funds" (by decide) (by decide) (by decide)⟩

/-- Claim C7, as amended. Every `SubmitBlockSpecimenProof` call of a run is made
with the arguments `(blockReplica.NetworkId, chainHeight, blockReplica.Hash, D,
replicaURL)` where `D`, 32 bytes long, is `sha256.Sum256` of the `json.Marshal`
text of `resultSegment`; with the Go library that text is `null` for the nil
slice and the base64 text in double quotes for any other slice, and the digest
is SHA-256. Two runs whose `resultSegment` is the same slice value (both nil or
both not nil, with equal bytes) pass the same digest, whatever ledger,
credential, contract address, chain height, chain length, replica URL and
block replica each of them is given. -/
theorem sendBlockReplicaProofTx_submit_args (lib : Lib) (net : Net)
    (config : Option EthConfig) (proofChain : String) (chainHeight chainLen : Nat)
    (resultSegment : ByteSlice) (replicaURL : String) (blockReplica : Option BlockReplica)
    (net₂ : Net) (config₂ : Option EthConfig) (proofChain₂ : String)
    (chainHeight₂ chainLen₂ : Nat) (resultSegment₂ : ByteSlice) (replicaURL₂ : String)
    (blockReplica₂ : Option BlockReplica) :
    (∀ c a res, Event.submit c a res ∈ (SendBlockReplicaProofTx lib net config proofChain
        chainHeight chainLen resultSegment replicaURL blockReplica).trace →
      ∃ b j, blockReplica = some b ∧ lib.Marshal resultSegment = .ok j ∧
        (a.chainId, a.blockHeight, a.blockHash, a.specimenHash, a.storageURL) =
          (b.NetworkId, chainHeight, b.Hash, lib.Sum256 (some j), replicaURL) ∧
        a.specimenHash.bytes.length = 32) ∧
    (∀ c a res, lib.Marshal = goMarshal → lib.Sum256 = goSum256 →
      Event.submit c a res ∈ (SendBlockReplicaProofTx lib net config proofChain
        chainHeight chainLen resultSegment replicaURL blockReplica).trace →
      a.specimenHash = goSum256 (goMarshal resultSegment).ptr) ∧
    (∀ c a res c₂ a₂ res₂,
      (resultSegment = none ↔ resultSegment₂ = none) →
      ByteSlice.bytes resultSegment = ByteSlice.bytes resultSegment₂ →
      Event.submit c a res ∈ (SendBlockReplicaProofTx lib net config proofChain chainHeight
        chainLen resultSegment replicaURL blockReplica).trace →
      Event.submit c₂ a₂ res₂ ∈ (SendBlockReplicaProofTx lib net₂ config₂ proofChain₂
        chainHeight₂ chainLen₂ resultSegment₂ replicaURL₂ blockReplica₂).trace →
      a.specimenHash = a₂.specimenHash) := by
  have key : ∀ (net : Net) (config : Option EthConfig) (proofChain : String)
      (chainHeight chainLen : Nat) (resultSegment : ByteSlice) (replicaURL : String)
      (blockReplica : Option BlockReplica)
      (c : ProofChain) (a : SubmitArgs) (res : Res Transaction),
      Event.submit c a res ∈ (SendBlockReplicaProofTx lib net config proofChain chainHeight
        chainLen resultSegment replicaURL blockReplica).trace →
      ∃ b j, blockReplica = some b ∧ lib.Marshal resultSegment = .ok j ∧
        (a.chainId, a.blockHeight, a.blockHash, a.specimenHash, a.storageURL) =
          (b.NetworkId, chainHeight, b.Hash, lib.Sum256 (some j), replicaURL) := by
    intro net config proofChain chainHeight chainLen resultSegment replicaURL blockReplica
      c a res h
    have hp := sendBlockReplicaProofTx_path lib net config proofChain chainHeight chainLen
      resultSegment replicaURL blockReplica
    generalize SendBlockReplicaProofTx lib net config proofChain chainHeight chainLen
      resultSegment replicaURL blockReplica = run at hp h
    cases hp <;>
      simp only [mem_chainIDEvents, List.mem_append] at h <;>
      simp_all
  refine ⟨?_, ?_, ?_⟩
  · intro c a res h
    obtain ⟨b, j, hb, hj, ha⟩ := key net config proofChain chainHeight chainLen resultSegment
      replicaURL blockReplica c a res h
    exact ⟨b, j, hb, hj, ha, a.specimenHash.size⟩
  · intro c a res hM hS h
    obtain ⟨b, j, _, hj, ha⟩ := key net config proofChain chainHeight chainLen resultSegment
      replicaURL blockReplica c a res h
    simp only [Prod.mk.injEq] at ha
    rw [ha.2.2.2.1, ← hS, ← hM, hj]
    rfl
  · intro c a res c₂ a₂ res₂ hn hbytes h h₂
    have hrs : resultSegment = resultSegment₂ := by
      cases resultSegment <;> cases resultSegment₂ <;> simp_all [ByteSlice.bytes]
    subst hrs
    obtain ⟨b, j, _, hj, ha⟩ := key net config proofChain chainHeight chainLen resultSegment
      replicaURL blockReplica c a res h
    obtain ⟨b₂, j₂, _, hj₂, ha₂⟩ := key net₂ config₂ proofChain₂ chainHeight₂ chainLen₂
      resultSegment replicaURL₂ blockReplica₂ c₂ a₂ res₂ h₂
    rw [hj] at hj₂
    cases hj₂
    simp only [Prod.mk.injEq] at ha ha₂
    rw [ha.2.2.2.1, ha₂.2.2.2.1]

/-- Claim C7, witness. In the scenario the contract is called with the digest
`1a82…3c3b`, which is the SHA-256 digest of the JSON text of the payload, the
base64 text `cmVzdWx0` in double quotes. The same payload submitted with
another credential, for another replica, at another height and URL, on a ledger
whose contract rejects the call, is passed with the same digest. -/
theorem sendBlockReplicaProofTx_submit_args_witness :
    (Event.submit scenarioContract scenarioArgs (.ok pendingTx)
        ∈ (scenario goLib okNet).trace ∧
      scenarioArgs.specimenHash = scenarioDigest ∧
      goLib.Marshal payload = .ok scenarioJSON) ∧
    (∃ b j, some (⟨1, hashDEAD⟩ : BlockReplica) = some b ∧ goLib.Marshal payload = .ok j ∧
      (scenarioArgs.chainId, scenarioArgs.blockHeight, scenarioArgs.blockHash,
        scenarioArgs.specimenHash, scenarioArgs.storageURL) =
        (b.NetworkId, 5, b.Hash, goLib.Sum256 (some j), "ipfs://replica") ∧
      scenarioArgs.specimenHash.bytes.length = 32) ∧
    scenarioArgs.specimenHash = goSum256 (goMarshal payload).ptr ∧
    (Event.submit scenarioContract
        ⟨some ⟨goPubkeyToAddress ⟨2⟩, 1⟩, 7, 9, hashABC, scenarioDigest, "ipfs://other"⟩
        (.err "insufficient funds")
        ∈ (SendBlockReplicaProofTx goLib rejectNet (some ⟨"0x02"⟩)
          "0x0000000000000000000000000000000000000abc" 9 2 payload "ipfs://other"
          (some ⟨7, hashABC⟩)).trace ∧
      scenarioArgs.specimenHash =
        (⟨some ⟨goPubkeyToAddress ⟨2⟩, 1⟩, 7, 9, hashABC, scenarioDigest,
          "ipfs://other"⟩ : SubmitArgs).specimenHash) :=
  ⟨⟨by decide, rfl, by decide⟩,
    (sendBlockReplicaProofTx_submit_args goLib okNet (some ⟨"0x01"⟩)
      "0x0000000000000000000000000000000000000abc" 5 1 payload "ipfs://replica"
      (some ⟨1, hashDEAD⟩) rejectNet (some ⟨"0x02"⟩)
      "0x0000000000000000000000000000000000000abc" 9 2 payload "ipfs://other"
      (some ⟨7, hashABC⟩)).1 scenarioContract scenarioArgs (.ok pendingTx) (by decide),
    (sendBlockReplicaProofTx_submit_args goLib okNet (some ⟨"0x01"⟩)
      "0x0000000000000000000000000000000000000abc" 5 1 payload "ipfs://replica"
      (some ⟨1, hashDEAD⟩) rejectNet (some ⟨"0x02"⟩)
      "0x0000000000000000000000000000000000000abc" 9 2 payload "ipfs://other"
      (some ⟨7, hashABC⟩)).2.1 scenarioContract scenarioArgs (.ok pendingTx) rfl rfl
      (by decide),
    ⟨by decide,
      (sendBlockReplicaProofTx_submit_args goLib okNet (some ⟨"0x01"⟩)
        "0x0000000000000000000000000000000000000abc" 5 1 payload "ipfs://replica"
        (some ⟨1, hashDEAD⟩) rejectNet (some ⟨"0x02"⟩)
        "0x0000000000000000000000000000000000000abc" 9 2 payload "ipfs://other"
        (some ⟨7, hashABC⟩)).2.2 scenarioContract scenarioArgs (.ok pendingTx)
        scenarioContract
        ⟨some ⟨goPubkeyToAddress ⟨2⟩, 1⟩, 7, 9, hashABC, scenarioDigest, "ipfs://other"⟩
        (.err "insufficient funds") (by decide) rfl (by decide) (by decide)⟩⟩

/-- Claim C7, counterexample. The nil slice and the empty slice `[]byte{}` have
the same bytes, none, but the two submissions pass different digests: the nil
slice is serialized as `null`, with digest `7423…b90b`, the empty slice as two
double quotes, with digest `12ae…e126`. -/
theorem sendBlockReplicaProofTx_nil_empty_digests :
    ByteSlice.bytes none = ByteSlice.bytes (some []) ∧
    (submitCalls (scenarioWith none).trace).map (fun a => a.specimenHash) = [nullDigest] ∧
    (submitCalls (scenarioWith (some [])).trace).map (fun a => a.specimenHash)
      = [emptyTextDigest] ∧
    nullDigest ≠ emptyTextDigest := by
  decide

/-- Claim C9. In every run `SubmitBlockSpecimenProof` is called at most once.
It is not called when the chain id query failed, when the transactor
construction failed or no transactor was built at all, when the contract did
not bind, or when the serialization failed. A call that returned an error is
followed by no `WaitMined` call; a call that returned a transaction is followed
by exactly one `WaitMined` call, on that transaction. In the order of the
events the digest passed to the call is computed before the call, and the call
is made before the wait. -/
theorem sendBlockReplicaProofTx_broadcast_once (lib : Lib) (net : Net) (config : Option EthConfig)
    (proofChain : String) (chainHeight chainLen : Nat) (resultSegment : ByteSlice)
    (replicaURL : String) (blockReplica : Option BlockReplica) :
    let run := SendBlockReplicaProofTx lib net config proofChain chainHeight chainLen
      resultSegment replicaURL blockReplica
    (submitCalls run.trace).length ≤ 1 ∧
    ((∃ e, Event.chainID (.err e) ∈ run.trace) → submitCalls run.trace = []) ∧
    ((∃ k cid e, Event.newKeyedTransactor k cid (.err e) ∈ run.trace) →
      submitCalls run.trace = []) ∧
    ((∀ k cid o, Event.newKeyedTransactor k cid (.ok o) ∉ run.trace) →
      submitCalls run.trace = []) ∧
    ((∃ addr e, Event.newProofChain addr (.err e) ∈ run.trace) → submitCalls run.trace = []) ∧
    ((∃ v e, Event.marshal v (.err e) ∈ run.trace) → submitCalls run.trace = []) ∧
    (∀ c a e, Event.submit c a (.err e) ∈ run.trace →
      waitCalls run.trace = [] ∧
      ∃ j, List.Sublist [Event.sum256 j a.specimenHash, Event.submit c a (.err e)]
        run.trace) ∧
    (∀ c a tx, Event.submit c a (.ok tx) ∈ run.trace →
      waitCalls run.trace = [tx] ∧
      ∃ j res, List.Sublist [Event.sum256 j a.specimenHash, Event.submit c a (.ok tx),
        Event.waitMined tx res] run.trace) := by
  have hp := sendBlockReplicaProofTx_path lib net config proofChain chainHeight chainLen
    resultSegment replicaURL blockReplica
  dsimp only
  generalize SendBlockReplicaProofTx lib net config proofChain chainHeight chainLen
    resultSegment replicaURL blockReplica = run at hp ⊢
  cases hp with
  | submitErr cfg id k o c j b e h0 h1 h2 h3 h4 h5 hb h6 =>
    refine ⟨by simp [submitCalls], by simp, by simp, ?_, by simp, by simp, ?_, by simp⟩
    · intro h
      exact absurd (by simp) (h k (some id) o)
    · intro c₁ a e₁ h
      simp at h
      obtain ⟨rfl, rfl, rfl⟩ := h
      exact ⟨by simp [waitCalls], j, .cons _ (.cons _ (.cons _ (.cons _ (.cons₂ _ (.cons₂ _
        (List.nil_sublist _))))))⟩
  | waitErr cfg id k o c j b tx e h0 h1 h2 h3 h4 h5 hb h6 h7 =>
    refine ⟨by simp [submitCalls], by simp, by simp, ?_, by simp, by simp, by simp, ?_⟩
    · intro h
      exact absurd (by simp) (h k (some id) o)
    · intro c₁ a tx₁ h
      simp at h
      obtain ⟨rfl, rfl, rfl⟩ := h
      exact ⟨by simp [waitCalls], j, _, .cons _ (.cons _ (.cons _ (.cons _ (.cons₂ _
        (.cons₂ _ (.cons₂ _ (List.nil_sublist _)))))))⟩
  | reverted cfg id k o c j b tx r h0 h1 h2 h3 h4 h5 hb h6 h7 h8 =>
    refine ⟨by simp [submitCalls], by simp, by simp, ?_, by simp, by simp, by simp, ?_⟩
    · intro h
      exact absurd (by simp) (h k (some id) o)
    · intro c₁ a tx₁ h
      simp at h
      obtain ⟨rfl, rfl, rfl⟩ := h
      exact ⟨by simp [waitCalls], j, _, .cons _ (.cons _ (.cons _ (.cons _ (.cons₂ _
        (.cons₂ _ (.cons₂ _ (List.nil_sublist _)))))))⟩
  | mined cfg id k o c j b tx r h0 h1 h2 h3 h4 h5 hb h6 h7 h8 =>
    refine ⟨by simp [submitCalls], by simp, by simp, ?_, by simp, by simp, by simp, ?_⟩
    · intro h
      exact absurd (by simp) (h k (some id) o)
    · intro c₁ a tx₁ h
      simp at h
      obtain ⟨rfl, rfl, rfl⟩ := h
      exact ⟨by simp [waitCalls], j, _, .cons _ (.cons _ (.cons _ (.cons _ (.cons₂ _
        (.cons₂ _ (.cons₂ _ (List.nil_sublist _)))))))⟩
  | _ =>
    simp only [submitCalls_append, submitCalls_chainIDEvents, waitCalls_append,
      waitCalls_chainIDEvents, mem_chainIDEvents, List.mem_append]
    simp_all [submitCalls, waitCalls]

/-- Claim C9, witness: in the scenario on the ledger where every step succeeds
the contract is called once, and the one wait is on the transaction the call
returned; on the ledger whose contract rejects the call no wait is made; on the
ledger whose chain id query fails the contract is not called. -/
theorem sendBlockReplicaProofTx_broadcast_once_witness :
    (Event.submit scenarioContract scenarioArgs (.ok pendingTx)
        ∈ (scenario goLib okNet).trace ∧
      submitCalls (scenario goLib okNet).trace = [scenarioArgs] ∧
      waitCalls (scenario goLib okNet).trace = [pendingTx]) ∧
    (Event.submit scenarioContract scenarioArgs (.err "insufficient funds")
        ∈ (scenario goLib rejectNet).trace ∧
      waitCalls (scenario goLib rejectNet).trace = []) ∧
    (Event.chainID (.err "connection refused") ∈ (scenario goLib noChainNet).trace ∧
      submitCalls (scenario goLib noChainNet).trace = []) :=
  ⟨⟨by decide, by decide,
      ((sendBlockReplicaProofTx_broadcast_once goLib okNet (some ⟨"0x01"⟩)
        "0x0000000000000000000000000000000000000abc" 5 1 payload "ipfs://replica"
        (some ⟨1, hashDEAD⟩)).2.2.2.2.2.2.2 scenarioContract scenarioArgs pendingTx (by decide)).1⟩,
    ⟨by decide,
      ((sendBlockReplicaProofTx_broadcast_once goLib rejectNet (some ⟨"0x01"⟩)
        "0x0000000000000000000000000000000000000abc" 5 1 payload "ipfs://replica"
        (some ⟨1, hashDEAD⟩)).2.2.2.2.2.2.1 scenarioContract scenarioArgs "insufficient funds"
        (by decide)).1⟩,
    ⟨by decide,
      (sendBlockReplicaProofTx_broadcast_once goLib noChainNet (some ⟨"0x01"⟩)
        "0x0000000000000000000000000000000000000abc" 5 1 payload "ipfs://replica"
        (some ⟨1, hashDEAD⟩)).2.1 ⟨"connection refused", by decide⟩⟩⟩

/-- Claim C10. When a value that is not the empty string is written to the
channel, then in that run the chain id query, the transactor construction, the
binding and the serialization succeeded, `SubmitBlockSpecimenProof` was called
and returned a transaction without error, `WaitMined` returned for that
transaction a receipt with a nil error and status `ReceiptStatusSuccessful`,
and the value is the string form of the receipt's `TxHash`, the only value
written. So on every other path only the empty string can be written. -/
theorem sendBlockReplicaProofTx_nonempty_sound (lib : Lib) (net : Net) (config : Option EthConfig)
    (proofChain : String) (chainHeight chainLen : Nat) (resultSegment : ByteSlice)
    (replicaURL : String) (blockReplica : Option BlockReplica) (v : String)
    (hv : v ∈ writes (SendBlockReplicaProofTx lib net config proofChain chainHeight chainLen
      resultSegment replicaURL blockReplica).trace)
    (hne : v ≠ "") :
    ∃ id k o c j a tx r,
      Event.chainID (.ok id) ∈ (SendBlockReplicaProofTx lib net config proofChain chainHeight
        chainLen resultSegment replicaURL blockReplica).trace ∧
      Event.newKeyedTransactor k (some id) (.ok o) ∈ (SendBlockReplicaProofTx lib net config
        proofChain chainHeight chainLen resultSegment replicaURL blockReplica).trace ∧
      Event.newProofChain (lib.HexToAddress proofChain) (.ok c) ∈ (SendBlockReplicaProofTx lib
        net config proofChain chainHeight chainLen resultSegment replicaURL blockReplica).trace ∧
      Event.marshal resultSegment (.ok j) ∈ (SendBlockReplicaProofTx lib net config proofChain
        chainHeight chainLen resultSegment replicaURL blockReplica).trace ∧
      Event.submit c a (.ok tx) ∈ (SendBlockReplicaProofTx lib net config proofChain
        chainHeight chainLen resultSegment replicaURL blockReplica).trace ∧
      Event.waitMined tx (.ok r) ∈ (SendBlockReplicaProofTx lib net config proofChain
        chainHeight chainLen resultSegment replicaURL blockReplica).trace ∧
      r.Status = ReceiptStatusSuccessful ∧
      v = Hash.String r.TxHash ∧
      writes (SendBlockReplicaProofTx lib net config proofChain chainHeight chainLen
        resultSegment replicaURL blockReplica).trace = [v] := by
  have hp := sendBlockReplicaProofTx_path lib net config proofChain chainHeight chainLen
    resultSegment replicaURL blockReplica
  generalize SendBlockReplicaProofTx lib net config proofChain chainHeight chainLen
    resultSegment replicaURL blockReplica = run at hp hv ⊢
  cases hp with
  | mined cfg id k o c j b tx r h0 h1 h2 h3 h4 h5 hb h6 h7 h8 =>
    refine ⟨id, k, o, c, j, ⟨some o, b.NetworkId, chainHeight, b.Hash,
      lib.Sum256 (some j), replicaURL⟩, tx, r, ?_⟩
    simp_all [writes]
  | _ =>
    simp only [writes_append, writes_chainIDEvents, mem_chainIDEvents, List.mem_append] at hv
    simp_all [writes]

/-- Claim C10, witness: the value written in the scenario on the ledger where
every step succeeds is not empty, and the run holds the successful wait it
comes from. -/
theorem sendBlockReplicaProofTx_nonempty_sound_witness :
    "0x0000000000000000000000000000000000000000000000000000000000000abc"
      ∈ writes (scenario goLib okNet).trace ∧
    "0x0000000000000000000000000000000000000000000000000000000000000abc" ≠ "" ∧
    ∃ id k o c j a tx r,
      Event.chainID (.ok id) ∈ (scenario goLib okNet).trace ∧
      Event.newKeyedTransactor k (some id) (.ok o) ∈ (scenario goLib okNet).trace ∧
      Event.newProofChain (goLib.HexToAddress "0x0000000000000000000000000000000000000abc")
        (.ok c) ∈ (scenario goLib okNet).trace ∧
      Event.marshal payload (.ok j) ∈ (scenario goLib okNet).trace ∧
      Event.submit c a (.ok tx) ∈ (scenario goLib okNet).trace ∧
      Event.waitMined tx (.ok r) ∈ (scenario goLib okNet).trace ∧
      r.Status = ReceiptStatusSuccessful ∧
      "0x0000000000000000000000000000000000000000000000000000000000000abc"
        = Hash.String r.TxHash ∧
      writes (scenario goLib okNet).trace
        = ["0x0000000000000000000000000000000000000000000000000000000000000abc"] :=
  ⟨by decide, by decide,
    sendBlockReplicaProofTx_nonempty_sound goLib okNet (some ⟨"0x01"⟩)
      "0x0000000000000000000000000000000000000abc" 5 1 payload "ipfs://replica"
      (some ⟨1, hashDEAD⟩) "0x0000000000000000000000000000000000000000000000000000000000000abc"
      (by decide) (by decide)⟩

/-- Claim C8, the code at the failing input. The chain id query fails;
`getTransactionOpts` logs the error, goes on with the nil chain id, and ends the
process in `log.Fatalf` when the transactor construction refuses it. It does
not return to its caller; the claim asks for a return with a non-nil error. -/
theorem getTransactionOpts_chainID_error :
    (getTransactionOpts goLib noChainNet (some ⟨"0x01"⟩)).trace =
      [.chainID (.err "connection refused"),
        .logError "error in getting transaction options: connection refused",
        .newKeyedTransactor scenarioKey none (.err "no chain id specified"),
        .logFatal "error getting new keyed transactor with chain id: no chain id specified"] ∧
    (getTransactionOpts goLib noChainNet (some ⟨"0x01"⟩)).out = .exit 1 := by
  decide

end Proof
